import Mathlib

/-!
Verification of astroid's module-spec resolution subsystem
(`astroid/interpreter/_import/spec.py`).

The Python source is shallowly embedded: host-interpreter collaborators
(the filesystem, `importlib.util.find_spec`, `importlib.machinery.PathFinder`,
`zipimport.zipimporter`, the live module / namespace registries) are modelled
as read-only functions packaged in an `Env`; the process-wide
`sys.path_importer_cache` is threaded explicitly as a `Pic` value.
All functions are executable and translated clause-by-clause from the source.
-/

/-- `ModuleType` enum (source lines 22-34). -/
inductive ModuleType where
  | C_BUILTIN
  | C_EXTENSION
  | PKG_DIRECTORY
  | PY_CODERESOURCE
  | PY_COMPILED
  | PY_FROZEN
  | PY_RESOURCE
  | PY_SOURCE
  | PY_ZIPMODULE
  | PY_NAMESPACE
deriving DecidableEq, Repr

/-- A Python `Sequence[str]` value as it actually occurs in the source:
either a list of strings, or (in `ZipFinder.find_module`, line 217, where a
plain `str` is passed) a raw string.  Iterating a Python `str` as a
`Sequence[str]` yields its one-character substrings. -/
inductive SeqStr where
  | ofList (l : List String)
  | ofStr (s : String)
deriving DecidableEq, Repr

/-- Iterating the `Sequence[str]` the way Python would. -/
def SeqStr.toPyList : SeqStr → List String
  | .ofList l => l
  | .ofStr s => s.toList.map fun c => String.mk [c]

/-- `ModuleSpec` named tuple (source lines 37-48).  `type` is declared as
`ModuleType` in the source, but `PathSpecFinder.find_module` (line 232)
actually passes `None` for non-namespace results, so the field is modelled
as optional to capture the code's real behaviour. -/
structure ModuleSpec where
  name : String
  type : Option ModuleType
  location : Option String := none
  origin : Option String := none
  submodule_search_locations : Option SeqStr := none
deriving DecidableEq, Repr

/-- Which loader `importlib.util.find_spec` reports for a name. -/
inductive NativeLoader where
  | builtin
  | frozen (filename : Option String)
  | other
deriving DecidableEq, Repr

/-- The part of a native `importlib` spec that the source reads:
the loader identity and (for the distutils special case, line 166)
the spec's `origin`. -/
structure NativeSpec where
  loader : NativeLoader
  origin : Option String
deriving DecidableEq, Repr

/-- Result of `importlib.util.find_spec(modname)` (source lines 105-121):
a spec, `None`, or a raised `ValueError`. -/
inductive NativeFindResult where
  | found (s : NativeSpec)
  | notFound
  | valueError
deriving DecidableEq, Repr

/-- The part of an `importlib.machinery.PathFinder.find_spec` result that
`PathSpecFinder.find_module` reads (source lines 225-239). -/
structure HostSpec where
  name : String
  origin : Option String
  submodule_search_locations : Option (List String)
deriving DecidableEq, Repr

/-- A `zipimport.zipimporter` handle: `hasModule s` models
`importer.find_module(s) is not None` (source lines 314-316). -/
structure ZipImporter where
  hasModule : String → Bool

/-- An entry of `sys.path_importer_cache`: either a `zipimporter` or some
other importer put there by the host import machinery. -/
inductive PicEntry where
  | zip (z : ZipImporter)
  | other

/-- `sys.path_importer_cache`, in dict insertion order. -/
abbrev Pic := List (String × PicEntry)

/-- The read-only host environment the resolver consults. -/
structure Env where
  /-- `sys.path`. -/
  sysPath : List String
  /-- `os.path.isfile`. -/
  isFile : String → Bool
  /-- `os.path.isdir`. -/
  isDir : String → Bool
  /-- First 4096 bytes of a file (`stream.read(4096)`, line 259), or
  `none` when opening raises `OSError`. -/
  read4096 : String → Option (List Char)
  /-- `importlib.util.find_spec`. -/
  nativeFindSpec : String → NativeFindResult
  /-- `importlib.machinery.PathFinder.find_spec(modname, path)`. -/
  pathFinderFindSpec : String → Option (List String) → Option HostSpec
  /-- `util.is_namespace(modname)`. -/
  isNamespace : String → Bool
  /-- `sys.modules[modname].__path__` when `modname in sys.modules`
  (the source only reads registered modules' `__path__`, line 185). -/
  sysModulesPath : String → Option (List String)
  /-- `zipimport.zipimporter(path)`: a handle, or `none` when it raises
  `ZipImportError` (source lines 300-303). -/
  zipimporterOf : String → Option ZipImporter
  /-- `os.path.abspath`. -/
  abspath : String → String
  /-- `importlib.machinery.EXTENSION_SUFFIXES` (host-dependent). -/
  extensionSuffixes : List String
  /-- `EXT_LIB_DIRS` from `astroid.modutils`. -/
  extLibDirs : List String

/-- `importlib.machinery.SOURCE_SUFFIXES` (CPython value on POSIX). -/
def SOURCE_SUFFIXES : List String := [".py"]

/-- `importlib.machinery.BYTECODE_SUFFIXES` (CPython value). -/
def BYTECODE_SUFFIXES : List String := [".pyc"]

/-- `str.startswith(pre)` (expressed on character lists so that concrete
instances evaluate by kernel reduction). -/
def strStartsWith (s pre : String) : Bool :=
  pre.toList.isPrefixOf s.toList

/-- POSIX `os.path.join` for two components. -/
def joinPath (a b : String) : String :=
  if b.toList.head? = some '/' then b
  else if a = "" ∨ a.toList.getLast? = some '/' then a ++ b
  else a ++ "/" ++ b

/-- `os.path.join(p, *parts)`. -/
def joinAll (p : String) (parts : List String) : String :=
  parts.foldl joinPath p

/-- `str.lower()` (ASCII case folding). -/
def lowerStr (s : String) : String :=
  String.mk (s.toList.map Char.toLower)

/-- `str(pathlib.Path(p).parent)`: everything before the last slash. -/
def pathParent (p : String) : String :=
  match p.toList.reverse.findIdx? (fun c => c == '/') with
  | none => "."
  | some i =>
    let k := p.toList.length - 1 - i
    if k = 0 then "/" else String.mk (p.toList.take k)

/-- Python `needle in data` for byte strings: substring containment. -/
def bytesContains (needle : List Char) : List Char → Bool
  | [] => needle.isEmpty
  | c :: t => needle.isPrefixOf (c :: t) || bytesContains needle t

/-- Python `a or b` where `a` is an optional list (`None` and `[]` are
falsy). -/
def pyOr (a b : Option (List String)) : Option (List String) :=
  match a with
  | some l => if l.isEmpty then b else some l
  | none => b

/-- Python `path or default` producing a list. -/
def pyOrPath (a : Option (List String)) (dflt : List String) : List String :=
  match a with
  | some l => if l.isEmpty then dflt else l
  | none => dflt

/-- Deduplication keeping first occurrences, with an accumulator of
already-seen keys. -/
def dedupGo (seen : List String) : List String → List String
  | [] => []
  | p :: rest =>
    if p ∈ seen then dedupGo seen rest
    else p :: dedupGo (p :: seen) rest

/-- order-deterministic rendering of a Python set built from a list. -/
def dedupKeepFirst (l : List String) : List String := dedupGo [] l

/-- `set(left) - set(right)` (`_cached_set_diff`, lines 270-274; the
`lru_cache` is a pure-performance device and is not modelled).  Python set
iteration order is unspecified; the model fixes left-list order. -/
def pySetDiff (left right : List String) : List String :=
  dedupKeepFirst (left.filter fun p => decide (p ∉ right))

/-- `_is_setuptools_namespace` (source lines 256-267).  Returns `none` for
the `OSError` branch (Python `None`, which is falsy at the call site). -/
def is_setuptools_namespace (env : Env) (location : String) : Option Bool :=
  match env.read4096 (joinPath location "__init__.py") with
  | none => none
  | some data =>
    let extendPath := bytesContains "pkgutil".toList data &&
      bytesContains "extend_path".toList data
    let declareNamespace := bytesContains "pkg_resources".toList data &&
      bytesContains "declare_namespace(__name__)".toList data
    some (extendPath || declareNamespace)

namespace ImportlibFinder

/-- `ImportlibFinder._SUFFIXES` (source lines 89-93): extension suffixes
first, then source, then bytecode, each tagged with its `ModuleType`. -/
def SUFFIXES (env : Env) : List (String × ModuleType) :=
  env.extensionSuffixes.map (fun s => (s, ModuleType.C_EXTENSION)) ++
    SOURCE_SUFFIXES.map (fun s => (s, ModuleType.PY_SOURCE)) ++
    BYTECODE_SUFFIXES.map (fun s => (s, ModuleType.PY_COMPILED))

/-- Body of the `for entry in submodule_path` loop (source lines 124-139):
package-directory check first (over `(".py", BYTECODE_SUFFIXES[0])`),
then the `_SUFFIXES` scan, first match wins. -/
def find_in_entry (env : Env) (modname : String) (entry : String) :
    Option ModuleSpec :=
  let package_directory := joinPath entry modname
  if [".py", ".pyc"].any
      (fun suffix => env.isFile (joinPath package_directory ("__init__" ++ suffix))) then
    some { name := modname, type := some ModuleType.PKG_DIRECTORY,
           location := some package_directory }
  else
    (SUFFIXES env).findSome? fun st =>
      if env.isFile (joinPath entry (modname ++ st.1)) then
        some { name := modname, type := some st.2,
               location := some (joinPath entry (modname ++ st.1)) }
      else none

/-- The whole entry loop over a search path. -/
def find_in_path (env : Env) (modname : String) (entries : List String) :
    Option ModuleSpec :=
  entries.findSome? (find_in_entry env modname)

/-- `ImportlibFinder.find_module` (source lines 95-140).  With no
submodule path it first consults the native registry for builtin/frozen
loaders; a `ValueError` from `importlib.util.find_spec` is swallowed; in
all fall-through cases it scans `sys.path`. -/
def find_module (env : Env) (modname : String)
    (submodule_path : Option (List String)) : Option ModuleSpec :=
  match submodule_path with
  | some sp => find_in_path env modname sp
  | none =>
    match env.nativeFindSpec modname with
    | .found s =>
      match s.loader with
      | .builtin =>
        some { name := modname, location := none,
               type := some ModuleType.C_BUILTIN }
      | .frozen filename =>
        some { name := modname, location := filename,
               type := some ModuleType.PY_FROZEN }
      | .other => find_in_path env modname env.sysPath
    | .notFound => find_in_path env modname env.sysPath
    | .valueError => find_in_path env modname env.sysPath

/-- `ImportlibFinder.contribute_to_path` (source lines 142-175).
The fixed name "distutils" can never make `importlib.util.find_spec`
raise `ValueError`, so that branch is folded into the no-spec case. -/
def contribute_to_path (env : Env) (spec : ModuleSpec)
    (processed : List String) : Option (List String) :=
  match spec.location with
  | none => none
  | some location =>
    if is_setuptools_namespace env location = some true then
      some ((env.sysPath.filter fun p => env.isDir (joinAll p processed)).map
        fun p => joinAll p processed)
    else if spec.name = "distutils" ∧
        ¬ (env.extLibDirs.any fun d =>
          strStartsWith (lowerStr location) (lowerStr d)) = true then
      match env.nativeFindSpec "distutils" with
      | .found s =>
        match s.origin with
        | some originPath =>
          if originPath = "" then some [location]
          else some [pathParent originPath]
        | none => some [location]
      | _ => some [location]
    else some [location]

end ImportlibFinder

namespace ExplicitNamespacePackageFinder

/-- `ExplicitNamespacePackageFinder.find_module` (source lines 181-193). -/
def find_module (env : Env) (modname : String) (processed : List String) :
    Option ModuleSpec :=
  let modname' :=
    if processed.isEmpty then modname
    else String.intercalate "." (processed ++ [modname])
  match env.sysModulesPath modname' with
  | some submodule_path =>
    if env.isNamespace modname' then
      some { name := modname', location := some "", origin := some "namespace",
             type := some ModuleType.PY_NAMESPACE,
             submodule_search_locations := some (.ofList submodule_path) }
    else none
  | none => none

end ExplicitNamespacePackageFinder

/-- The two distinct `ImportError`s of `_search_zip`
(source lines 317-320 and 327). -/
inductive ZipError where
  | archiveInconsistency (subpath : String) (archive : String)
  | notFoundInArchives (dotted : String)
deriving DecidableEq, Repr

/-- `_precache_zipimporters` (source lines 277-308), cache-update part:
for each requested path not already a cache key, try to construct a
`zipimporter`; on `ZipImportError` the path is skipped (not recorded). -/
def precache_zipimporters (env : Env) (path : Option (List String))
    (pic : Pic) : Pic :=
  let req_paths := pyOrPath path env.sysPath
  let cached_paths := pic.map Prod.fst
  let new_paths := pySetDiff req_paths cached_paths
  pic ++ new_paths.filterMap fun p =>
    (env.zipimporterOf p).map fun z => (p, PicEntry.zip z)

/-- The dict comprehension of `_precache_zipimporters` (lines 304-308):
the cache entries that are `zipimporter` instances, in cache order. -/
def zip_importers_of (pic : Pic) : List (String × ZipImporter) :=
  pic.filterMap fun kv =>
    match kv.2 with
    | .zip z => some (kv.1, z)
    | .other => none

/-- Inner loop of `_search_zip` over the importer dict. -/
def search_zip_go (env : Env) (modpath : List String) (m0 : String) :
    List (String × ZipImporter) →
      Except ZipError (ModuleType × String × String)
  | [] => .error (.notFoundInArchives (String.intercalate "." modpath))
  | (filepath, importer) :: rest =>
    if importer.hasModule m0 then
      if importer.hasModule (String.intercalate "/" modpath) then
        .ok (ModuleType.PY_ZIPMODULE,
          env.abspath filepath ++ "/" ++ String.intercalate "/" modpath,
          filepath)
      else
        .error (.archiveInconsistency
          (String.intercalate "." modpath.tail) filepath)
    else search_zip_go env modpath m0 rest

/-- `_search_zip` (source lines 311-327).  `modpath[0]` presupposes a
non-empty path; `find_spec` only ever passes non-empty `module_parts`. -/
def search_zip (env : Env) (modpath : List String)
    (pic : List (String × ZipImporter)) :
    Except ZipError (ModuleType × String × String) :=
  match modpath with
  | [] => .error (.notFoundInArchives "")
  | m0 :: _ => search_zip_go env modpath m0 pic

namespace ZipFinder

/-- `ZipFinder.find_module` (source lines 206-218): any `ImportError`
raised by `_search_zip` — including the archive-inconsistency one — is
caught and turned into `None`. -/
def find_module (env : Env) (modname : String) (module_parts : List String)
    (zipimporters : List (String × ZipImporter)) : Option ModuleSpec :=
  match search_zip env module_parts zipimporters with
  | .error _ => none
  | .ok (file_type, filename, path) =>
    some { name := modname, location := some filename, origin := some "egg",
           type := some file_type,
           submodule_search_locations := some (.ofStr path) }

end ZipFinder

namespace PathSpecFinder

/-- `PathSpecFinder.find_module` (source lines 224-240).  Note that for a
non-namespace result the constructed record's `type` is Python `None`. -/
def find_module (env : Env) (modname : String)
    (submodule_path : Option (List String)) : Option ModuleSpec :=
  match env.pathFinderFindSpec modname submodule_path with
  | none => none
  | some s =>
    let is_namespace_pkg := s.origin = some "namespace" ∨ s.origin = none
    some { name := s.name,
           location := if is_namespace_pkg then none else s.origin,
           origin := s.origin,
           type := if is_namespace_pkg then some ModuleType.PY_NAMESPACE
                   else none,
           submodule_search_locations :=
             some (.ofList (s.submodule_search_locations.getD [])) }

end PathSpecFinder

/-- Which finder of `_SPEC_FINDERS` (source lines 248-253) matched. -/
inductive FinderKind where
  | importlibFinder
  | zipFinder
  | pathSpecFinder
  | explicitNamespaceFinder
deriving DecidableEq, Repr

/-- `finder.contribute_to_path(spec, processed)` dispatched on the finder
that produced the spec.  `ZipFinder` does not override the base method
(source line 82), which returns `None`; `PathSpecFinder` (lines 242-245)
returns the locations only for namespace records;
`ExplicitNamespacePackageFinder` (lines 195-196) returns them always. -/
def contribute_to_path (env : Env) (fk : FinderKind) (spec : ModuleSpec)
    (processed : List String) : Option (List String) :=
  match fk with
  | .importlibFinder => ImportlibFinder.contribute_to_path env spec processed
  | .zipFinder => none
  | .pathSpecFinder =>
    if spec.type = some ModuleType.PY_NAMESPACE then
      spec.submodule_search_locations.map SeqStr.toPyList
    else none
  | .explicitNamespaceFinder =>
    spec.submodule_search_locations.map SeqStr.toPyList

/-- The finder chain of `_find_spec_with_path` (lines 332-338), run
against an already-updated importer cache.  The error value carries the
dotted `module_parts` of the final `ImportError` (line 338). -/
def find_spec_chain (env : Env) (modname : String)
    (module_parts processed : List String)
    (submodule_path : Option (List String)) (pic : Pic) :
    Except String (FinderKind × ModuleSpec) × Pic :=
  (match ImportlibFinder.find_module env modname submodule_path with
   | some spec => .ok (.importlibFinder, spec)
   | none =>
     match ZipFinder.find_module env modname module_parts
         (zip_importers_of pic) with
     | some spec => .ok (.zipFinder, spec)
     | none =>
       match PathSpecFinder.find_module env modname submodule_path with
       | some spec => .ok (.pathSpecFinder, spec)
       | none =>
         match ExplicitNamespacePackageFinder.find_module env modname
             processed with
         | some spec => .ok (.explicitNamespaceFinder, spec)
         | none => .error (String.intercalate "." module_parts),
   pic)

/-- `_find_spec_with_path` (source lines 330-338).  Constructing the
finder list instantiates `ZipFinder(search_path)`, whose `__init__`
(lines 202-204) updates `sys.path_importer_cache` before any finder
is tried. -/
def find_spec_with_path (env : Env) (search_path : List String)
    (modname : String) (module_parts processed : List String)
    (submodule_path : Option (List String)) (pic : Pic) :
    Except String (FinderKind × ModuleSpec) × Pic :=
  find_spec_chain env modname module_parts processed submodule_path
    (precache_zipimporters env (some search_path) pic)

/-- The caller-visible failures of `find_spec`.  `emptyModpath` stands for
the `NameError` Python would raise on an empty input (the variable `spec`
is unbound at `return spec`); the input contract requires a non-empty
path. -/
inductive ResolveError where
  | moduleNotFound (dotted : String)
  | emptyModpath
deriving DecidableEq, Repr

/-- The `while modpath:` loop of `find_spec` (source lines 367-379),
with the remaining components, processed components, current
`submodule_path` and the importer cache as explicit state. -/
def find_spec_loop (env : Env) (search_path : List String)
    (path : Option (List String)) (module_parts : List String) :
    List String → List String → Option (List String) → Pic →
      Except ResolveError ModuleSpec × Pic
  | [], _, _, pic => (.error .emptyModpath, pic)
  | modname :: rest, processed, submodule_path, pic =>
    match find_spec_with_path env search_path modname module_parts processed
        (pyOr submodule_path path) pic with
    | (.error dotted, pic') => (.error (.moduleNotFound dotted), pic')
    | (.ok (fk, spec), pic') =>
      let processed' := processed ++ [modname]
      let sub' :=
        if rest.isEmpty then submodule_path
        else contribute_to_path env fk spec processed'
      let spec' :=
        if spec.type = some ModuleType.PKG_DIRECTORY then
          { spec with submodule_search_locations := sub'.map SeqStr.ofList }
        else spec
      match rest with
      | [] => (.ok spec', pic')
      | _ :: _ =>
        find_spec_loop env search_path path module_parts rest processed'
          sub' pic'

/-- `find_spec` (source lines 341-379).  `modpath` is copied before the
loop (line 361) and `module_parts` is a second copy (line 364); in this
value-level model both are just the input list. -/
def find_spec (env : Env) (pic : Pic) (modpath : List String)
    (path : Option (List String)) : Except ResolveError ModuleSpec × Pic :=
  find_spec_loop env (pyOrPath path env.sysPath) path modpath modpath [] none
    pic

/-!
A second rendering of `find_spec` in which Python list objects are
explicit heap cells, so that aliasing and in-place mutation
(`modpath.pop(0)`, `processed.append(...)`, the `modpath[:]` copies)
are visible.  Only the orchestration loop needs this; the finder bodies
never mutate any list they receive (they only read, or copy with
`list(...)`), so they are reused as the pure functions above.
-/

/-- A heap of Python list objects; references are indices. -/
structure Store where
  cells : List (List String)

/-- Dereference (out-of-range reads return `[]`; all references used by
`find_spec_st` are in range). -/
def Store.read (σ : Store) (r : Nat) : List String :=
  σ.cells.getD r []

/-- In-place update of one list object. -/
def Store.write (σ : Store) (r : Nat) (v : List String) : Store :=
  ⟨σ.cells.set r v⟩

/-- Allocate a fresh list object. -/
def Store.alloc (σ : Store) (v : List String) : Store × Nat :=
  (⟨σ.cells ++ [v]⟩, σ.cells.length)

/-- `return spec` at the end of `find_spec`: the variable is unbound
(Python `NameError`) when the loop never ran. -/
def specResult : Option ModuleSpec → Except ResolveError ModuleSpec
  | some s => .ok s
  | none => .error .emptyModpath

/-- The `while modpath:` loop of `find_spec` over the store: `mpRef` is
the local copy of `modpath`, `procRef` the `processed` list, `pathRef`
the caller's `path` argument (re-read each iteration, as Python reads the
live object).  `fuel` bounds the iteration count; `find_spec_st` passes
the length of the module path, which the `pop(0)` in each iteration
decrements, so fuel never runs out on the calls made here. -/
def find_spec_loop_st (env : Env) (search_path : List String)
    (pathRef : Option Nat) (module_parts : List String)
    (mpRef procRef : Nat) :
    Nat → Option (List String) → Option ModuleSpec → Pic → Store →
      (Except ResolveError ModuleSpec × Pic) × Store
  | 0, _, last, pic, σ =>
    match σ.read mpRef with
    | [] => ((specResult last, pic), σ)
    | _ :: _ => ((.error .emptyModpath, pic), σ)
  | fuel + 1, submodule_path, last, pic, σ =>
    match σ.read mpRef with
    | [] => ((specResult last, pic), σ)
    | modname :: rest =>
      let σ1 := σ.write mpRef rest
      let processed := σ1.read procRef
      match find_spec_with_path env search_path modname module_parts
          processed (pyOr submodule_path (pathRef.map σ1.read)) pic with
      | (.error dotted, pic') => ((.error (.moduleNotFound dotted), pic'), σ1)
      | (.ok (fk, spec), pic') =>
        let σ2 := σ1.write procRef (processed ++ [modname])
        let sub' :=
          if (σ2.read mpRef).isEmpty then submodule_path
          else contribute_to_path env fk spec (σ2.read procRef)
        let spec' :=
          if spec.type = some ModuleType.PKG_DIRECTORY then
            { spec with
              submodule_search_locations := sub'.map SeqStr.ofList }
          else spec
        find_spec_loop_st env search_path pathRef module_parts mpRef
          procRef fuel sub' (some spec') pic' σ2

/-- `find_spec` with the caller's `modpath` and `path` as heap objects:
line 361's `modpath = modpath[:]` allocates a fresh cell (the caller's
object is never written again), line 364's `module_parts = modpath[:]`
takes a value copy, `processed = []` allocates a fresh cell. -/
def find_spec_st (env : Env) (pic : Pic) (σ : Store) (modpathRef : Nat)
    (pathRef : Option Nat) : (Except ResolveError ModuleSpec × Pic) × Store :=
  let search_path := pyOrPath (pathRef.map σ.read) env.sysPath
  let a1 := σ.alloc (σ.read modpathRef)
  let module_parts := a1.1.read a1.2
  let a2 := a1.1.alloc []
  find_spec_loop_st env search_path pathRef module_parts a1.2 a2.2
    (a2.1.read a1.2).length none none pic a2.1

/-!
Concrete environments used by the counterexamples and witnesses below.
-/

/-- A host environment in which every probe fails. -/
def envNone : Env where
  sysPath := []
  isFile := fun _ => false
  isDir := fun _ => false
  read4096 := fun _ => none
  nativeFindSpec := fun _ => .notFound
  pathFinderFindSpec := fun _ _ => none
  isNamespace := fun _ => false
  sysModulesPath := fun _ => none
  zipimporterOf := fun _ => none
  abspath := id
  extensionSuffixes := [".so"]
  extLibDirs := []

/-- One archive `/z.egg` on the path; it contains a top-level `pkg` but
not `pkg/sub`. -/
def envC1 : Env :=
  { envNone with
    sysPath := ["/z.egg"]
    zipimporterOf := fun p =>
      if p = "/z.egg" then some ⟨fun s => s == "pkg"⟩ else none }

/-- A package directory `/lib/pkg` (plain `__init__.py`, no markers). -/
def envC2 : Env :=
  { envNone with isFile := fun p => p == "/lib/pkg/__init__.py" }

/-- `sys` satisfied by the builtin loader, and a file `/lib/sys.py`. -/
def envC3 : Env :=
  { envNone with
    nativeFindSpec := fun n =>
      if n = "sys" then .found ⟨.builtin, none⟩ else .notFound
    isFile := fun p => p == "/lib/sys.py" }

/-- `sys.path = ["/lib"]` with a single source file `/lib/os.py`. -/
def envC4 : Env :=
  { envNone with
    sysPath := ["/lib"]
    isFile := fun p => p == "/lib/os.py" }

/-- `sys.path = ["/r"]` with `/r/pkg` a directory; the package at `/loc`
has an `__init__.py` containing both `pkgutil` and `extend_path`. -/
def envC5 : Env :=
  { envNone with
    sysPath := ["/r"]
    isDir := fun p => p == "/r/pkg"
    read4096 := fun p =>
      if p == "/loc/__init__.py" then
        some "from pkgutil import extend_path".toList
      else none }

/-- A package-directory record located at `/loc`, as
`ImportlibFinder.find_module` would produce it. -/
def specC5 : ModuleSpec :=
  { name := "pkg", type := some ModuleType.PKG_DIRECTORY,
    location := some "/loc" }

/-- The host `PathFinder` resolves `foo` to a concrete origin
`/lib/foo.bin`; no other finder matches. -/
def envC7 : Env :=
  { envNone with
    pathFinderFindSpec := fun n _ =>
      if n = "foo" then some ⟨"foo", some "/lib/foo.bin", none⟩ else none }

/-- A search path whose single entry `/bad` is not a valid archive. -/
def envC8 : Env := { envNone with sysPath := ["/bad"] }

/-- A store holding the caller's `modpath` object `["a"]` at reference 0
and the caller's `path` object `["/lib"]` at reference 1. -/
def storeW : Store := ⟨[["a"], ["/lib"]]⟩

/-!
## Theorems
-/

/-- If every element of a list maps to `none`, `findSome?` is `none`. -/
theorem findSome_none {α β : Type} (f : α → Option β) :
    ∀ l : List α, (∀ x ∈ l, f x = none) → l.findSome? f = none := by
  intro l h
  induction l with
  | nil => rfl
  | cons a t ih =>
    simp only [List.findSome?]
    rw [h a (by simp)]
    exact ih fun x hx => h x (by simp [hx])

/-- `findSome?` of an indicator function that is `some b` exactly at a
member `x` returns `some b`. -/
theorem findSome_indicator {α β : Type} [DecidableEq α] (f : α → Option β)
    (l : List α) (x : α) (b : β) (hx : x ∈ l)
    (h : ∀ y ∈ l, f y = if y = x then some b else none) :
    l.findSome? f = some b := by
  induction l with
  | nil => cases hx
  | cons a t ih =>
    simp only [List.findSome?]
    by_cases hax : a = x
    · rw [h a (by simp), if_pos hax]
    · rw [h a (by simp), if_neg hax]
      exact ih (by cases hx with
        | head => exact absurd rfl hax
        | tail _ ht => exact ht)
        (fun y hy => h y (by simp [hy]))

/-- C1, counterexample.  In `envC1` the archive `/z.egg` contains the
top-level `pkg` but not `pkg/sub`: `_search_zip` raises the
archive-inconsistency `ImportError`, yet resolution of `pkg.sub` surfaces
as an ordinary ModuleNotFound — it fell through to the later finders
instead of failing with the archive error, refuting the claim. -/
theorem c1_counterexample :
    (find_spec envC1 [] ["pkg", "sub"] none).1 =
      .error (.moduleNotFound "pkg.sub") ∧
    search_zip envC1 ["pkg", "sub"]
      (zip_importers_of (precache_zipimporters envC1 (some envC1.sysPath) [])) =
      .error (.archiveInconsistency "sub" "/z.egg") :=
  ⟨rfl, rfl⟩

/-- C1, amended: whenever `_search_zip` raises (including the
archive-inconsistency case), `ZipFinder.find_module` catches the
`ImportError` and declines with `None`, so the walk falls through to the
later finders rather than failing with the archive error. -/
theorem c1_amended (env : Env) (modname : String)
    (module_parts : List String) (zips : List (String × ZipImporter))
    {e : ZipError} (h : search_zip env module_parts zips = .error e) :
    ZipFinder.find_module env modname module_parts zips = none := by
  unfold ZipFinder.find_module
  rw [h]

/-- C1, witness for the amended theorem at the `envC1` scenario. -/
theorem c1_witness :
    search_zip envC1 ["pkg", "sub"]
      (zip_importers_of (precache_zipimporters envC1 (some envC1.sysPath) [])) =
      .error (.archiveInconsistency "sub" "/z.egg") ∧
    ZipFinder.find_module envC1 "pkg" ["pkg", "sub"]
      (zip_importers_of (precache_zipimporters envC1 (some envC1.sysPath) [])) =
      none :=
  ⟨rfl, c1_amended envC1 "pkg" ["pkg", "sub"] _ rfl⟩

/-- C2, counterexample.  `/lib/pkg` is a plain package directory (no
markers, not distutils) and the dotted path `pkg` resolves to it, but the
returned record's `submodule_search_locations` is absent, not
`["/lib/pkg"]`: the final replace at line 377 uses the submodule path
computed before the last component, which is `None` for a top-level
package. -/
theorem c2_counterexample :
    (find_spec envC2 [] ["pkg"] (some ["/lib"])).1 =
      .ok { name := "pkg", type := some ModuleType.PKG_DIRECTORY,
            location := some "/lib/pkg", origin := none,
            submodule_search_locations := none } :=
  rfl

/-- C2, amended: a single-component dotted path resolving to a package
directory yields a record whose `submodule_search_locations` is absent
(the `_replace` on line 377 installs the `submodule_path` of the
*previous* iteration, which does not exist for the first component). -/
theorem c2_amended (env : Env) (pic : Pic) (e modname : String)
    (h : env.isFile (joinPath (joinPath e modname) "__init__.py") = true) :
    (find_spec env pic [modname] (some [e])).1 =
      .ok { name := modname, type := some ModuleType.PKG_DIRECTORY,
            location := some (joinPath e modname), origin := none,
            submodule_search_locations := none } := by
  simp [find_spec, find_spec_loop, find_spec_with_path, find_spec_chain,
    pyOr, pyOrPath, ImportlibFinder.find_module, ImportlibFinder.find_in_path,
    ImportlibFinder.find_in_entry, List.findSome?, h]

/-- C2, witness for the amended theorem at the `envC2` scenario. -/
theorem c2_witness :
    envC2.isFile (joinPath (joinPath "/lib" "pkg") "__init__.py") = true ∧
    (find_spec envC2 [] ["pkg"] (some ["/lib"])).1 =
      .ok { name := "pkg", type := some ModuleType.PKG_DIRECTORY,
            location := some (joinPath "/lib" "pkg"), origin := none,
            submodule_search_locations := none } :=
  ⟨by decide, c2_amended envC2 [] "/lib" "pkg" (by decide)⟩

/-- C3, counterexample.  `sys` is satisfied by the builtin loader in
`envC3`, yet with an explicitly supplied search path containing
`/lib/sys.py` the resolution returns a Source record for that file, not
BuiltinCompiled: a caller-supplied path is handed to
`ImportlibFinder.find_module` as `submodule_path` (line 370), which skips
the builtin/frozen lookup entirely. -/
theorem c3_counterexample :
    envC3.nativeFindSpec "sys" = .found ⟨.builtin, none⟩ ∧
    (find_spec envC3 [] ["sys"] (some ["/lib"])).1 =
      .ok { name := "sys", type := some ModuleType.PY_SOURCE,
            location := some "/lib/sys.py", origin := none,
            submodule_search_locations := none } :=
  ⟨rfl, rfl⟩

/-- C3, amended: builtin precedence holds only when the caller supplies
no search path: then a name satisfied by the builtin loader always
resolves to BuiltinCompiled with absent location, regardless of same-named
files on `sys.path`. -/
theorem c3_amended (env : Env) (pic : Pic) (modname : String)
    (o : Option String)
    (h : env.nativeFindSpec modname = .found ⟨.builtin, o⟩) :
    (find_spec env pic [modname] none).1 =
      .ok { name := modname, type := some ModuleType.C_BUILTIN,
            location := none, origin := none,
            submodule_search_locations := none } := by
  simp [find_spec, find_spec_loop, find_spec_with_path, find_spec_chain,
    pyOr, pyOrPath, ImportlibFinder.find_module, h]

/-- C3, witness for the amended theorem at the `envC3` scenario. -/
theorem c3_witness :
    envC3.nativeFindSpec "sys" = .found ⟨.builtin, none⟩ ∧
    (find_spec envC3 [] ["sys"] none).1 =
      .ok { name := "sys", type := some ModuleType.C_BUILTIN,
            location := none, origin := none,
            submodule_search_locations := none } :=
  ⟨rfl, c3_amended envC3 [] "sys" none rfl⟩

/-- C5, counterexample.  With search path `["/r"]` and `/r/pkg` a
directory, the child search path computed for a marker-bearing package is
`["/r/pkg"]` — the joined subdirectory paths — not `["/r"]`, the set of
search-path directories containing the same-named subdirectory that the
claim describes. -/
theorem c5_counterexample :
    ImportlibFinder.contribute_to_path envC5 specC5 ["pkg"] =
      some ["/r/pkg"] ∧
    ¬ ImportlibFinder.contribute_to_path envC5 specC5 ["pkg"] =
      some ["/r"] :=
  ⟨rfl, by decide⟩

/-- C5, amended: for a package whose `__init__` carries the
namespace-extension markers, the contributed child search path consists of
the *joined subdirectory paths*: exactly the values `p/<processed>` for
the search-path entries `p` where that joined path is a directory. -/
theorem c5_amended (env : Env) (spec : ModuleSpec) (processed : List String)
    (location : String) (hloc : spec.location = some location)
    (hns : is_setuptools_namespace env location = some true) :
    ∃ l, ImportlibFinder.contribute_to_path env spec processed = some l ∧
      ∀ x, x ∈ l ↔ ∃ p, p ∈ env.sysPath ∧
        env.isDir (joinAll p processed) = true ∧ x = joinAll p processed := by
  obtain ⟨nm, ty, loc, og, ssl⟩ := spec
  simp only at hloc
  subst hloc
  unfold ImportlibFinder.contribute_to_path
  simp only [hns, if_pos]
  refine ⟨_, rfl, ?_⟩
  intro x
  simp only [List.mem_map, List.mem_filter]
  constructor
  · rintro ⟨p, ⟨hp, hd⟩, hx⟩
    exact ⟨p, hp, hd, hx.symm⟩
  · rintro ⟨p, hp, hd, hx⟩
    exact ⟨p, ⟨hp, hd⟩, hx.symm⟩

/-- C5, witness for the amended theorem at the `envC5` scenario. -/
theorem c5_witness :
    (specC5.location = some "/loc" ∧
      is_setuptools_namespace envC5 "/loc" = some true) ∧
    (∃ l, ImportlibFinder.contribute_to_path envC5 specC5 ["pkg"] = some l ∧
      ∀ x, x ∈ l ↔ ∃ p, p ∈ envC5.sysPath ∧
        envC5.isDir (joinAll p ["pkg"]) = true ∧ x = joinAll p ["pkg"]) :=
  ⟨⟨rfl, by decide⟩, c5_amended envC5 specC5 ["pkg"] "/loc" rfl (by decide)⟩

/-- C6, counterexample.  In `envNone` nothing matches, so the walk over
`["a", "b"]` fails at its *first* component; the claim predicts a
ModuleNotFound identifying `"a"` (the components processed so far), but
the raised error (line 338) carries the full dotted input `"a.b"`. -/
theorem c6_counterexample :
    (find_spec envNone [] ["a", "b"] none).1 =
      .error (.moduleNotFound "a.b") ∧
    ("a.b" : String) ≠ "a" :=
  ⟨rfl, by decide⟩

/-- C7, evaluation at the failing input.  The host `PathFinder` resolves
`foo` with the concrete origin `/lib/foo.bin` (not a namespace marker);
`PathSpecFinder.find_module` (line 232) then builds — and `find_spec`
returns to the caller — a record whose `type` is Python `None`, although
`ModuleSpec.type` is declared non-optional and the claim promises a
member of the closed StorageKind enumeration. -/
theorem c7_type_absent :
    (find_spec envC7 [] ["foo"] none).1 =
      .ok { name := "foo", type := none, location := some "/lib/foo.bin",
            origin := some "/lib/foo.bin",
            submodule_search_locations := some (.ofList []) } :=
  rfl

/-- C8, counterexample.  Constructing a zipimporter for `/bad` fails, and
after cache population the cache is still empty: the failed path is *not*
recorded as a negative entry (the `except ZipImportError: continue` at
lines 302-303 records nothing), so nothing prevents the construction from
being attempted again on a later call. -/
theorem c8_counterexample :
    envC8.zipimporterOf "/bad" = none ∧
    precache_zipimporters envC8 (some ["/bad"]) [] = [] :=
  ⟨rfl, rfl⟩

/-- Every suffix in `_SUFFIXES` is tagged native-extension, source, or
bytecode. -/
theorem suffix_kind_mem (env : Env) (s : String) (t : ModuleType)
    (h : (s, t) ∈ ImportlibFinder.SUFFIXES env) :
    t = ModuleType.C_EXTENSION ∨ t = ModuleType.PY_SOURCE ∨
      t = ModuleType.PY_COMPILED := by
  unfold ImportlibFinder.SUFFIXES at h
  rcases List.mem_append.1 h with h1 | h1
  · rcases List.mem_append.1 h1 with h2 | h2
    · obtain ⟨x, -, hx⟩ := List.mem_map.1 h2
      exact Or.inl (congrArg Prod.snd hx).symm
    · obtain ⟨x, -, hx⟩ := List.mem_map.1 h2
      exact Or.inr (Or.inl (congrArg Prod.snd hx).symm)
  · obtain ⟨x, -, hx⟩ := List.mem_map.1 h1
    exact Or.inr (Or.inr (congrArg Prod.snd hx).symm)

/-- C4, confirmed.  If a module name is not builtin/frozen, no search-path
entry holds a package directory for it, and exactly one `(entry, suffix)`
pair on the search path has a file `<modname><suffix>`, then resolution
returns a record typed with that suffix's StorageKind and located at that
file.  (The suffix priority order — extensions, then source, then
bytecode — and the package-check-first order are fixed by
`ImportlibFinder.SUFFIXES` and `find_in_entry`.) -/
theorem c4_unique_suffix_file (env : Env) (pic : Pic) (modname e s : String)
    (t : ModuleType)
    (hNative : env.nativeFindSpec modname = .notFound)
    (hNoPkg : ∀ e' ∈ env.sysPath,
      env.isFile (joinPath (joinPath e' modname) "__init__.py") = false ∧
      env.isFile (joinPath (joinPath e' modname) "__init__.pyc") = false)
    (hMem : e ∈ env.sysPath)
    (hSuf : (s, t) ∈ ImportlibFinder.SUFFIXES env)
    (hUnique : ∀ e' ∈ env.sysPath, ∀ st ∈ ImportlibFinder.SUFFIXES env,
      (env.isFile (joinPath e' (modname ++ st.1)) = true ↔
        (e' = e ∧ st = (s, t)))) :
    (find_spec env pic [modname] none).1 =
      .ok { name := modname, type := some t,
            location := some (joinPath e (modname ++ s)), origin := none,
            submodule_search_locations := none } := by
  have hEntry : ∀ e' ∈ env.sysPath,
      ImportlibFinder.find_in_entry env modname e' =
        if e' = e then
          some { name := modname, type := some t,
                 location := some (joinPath e (modname ++ s)), origin := none,
                 submodule_search_locations := none }
        else none := by
    intro e' he'
    obtain ⟨h1, h2⟩ := hNoPkg e' he'
    unfold ImportlibFinder.find_in_entry
    rw [if_neg (by simp [h1, h2])]
    by_cases hee : e' = e
    · subst hee
      rw [if_pos rfl]
      apply findSome_indicator _ _ (s, t) _ hSuf
      intro st hst
      by_cases hse : st = (s, t)
      · subst hse
        rw [(hUnique e' he' (s, t) hst).mpr ⟨rfl, rfl⟩]
        simp
      · have hf : env.isFile (joinPath e' (modname ++ st.1)) = false :=
          Bool.eq_false_iff.mpr fun hh =>
            hse ((hUnique e' he' st hst).mp hh).2
        rw [hf, if_neg hse]
        simp
    · rw [if_neg hee]
      apply findSome_none
      intro st hst
      have hf : env.isFile (joinPath e' (modname ++ st.1)) = false :=
        Bool.eq_false_iff.mpr fun hh =>
          hee ((hUnique e' he' st hst).mp hh).1
      rw [hf]
      simp
  have hPath : ImportlibFinder.find_in_path env modname env.sysPath =
      some { name := modname, type := some t,
             location := some (joinPath e (modname ++ s)), origin := none,
             submodule_search_locations := none } := by
    unfold ImportlibFinder.find_in_path
    exact findSome_indicator _ _ e _ hMem hEntry
  have ht : t ≠ ModuleType.PKG_DIRECTORY := by
    rcases suffix_kind_mem env s t hSuf with h | h | h <;> subst h <;> decide
  simp [find_spec, find_spec_loop, find_spec_with_path, find_spec_chain,
    pyOr, pyOrPath, ImportlibFinder.find_module, hNative, hPath, ht]

/-- C4, witness: `/lib/os.py` is the unique matching file in `envC4`. -/
theorem c4_witness :
    (envC4.nativeFindSpec "os" = .notFound ∧
      "/lib" ∈ envC4.sysPath ∧
      (".py", ModuleType.PY_SOURCE) ∈ ImportlibFinder.SUFFIXES envC4) ∧
    (find_spec envC4 [] ["os"] none).1 =
      .ok { name := "os", type := some ModuleType.PY_SOURCE,
            location := some (joinPath "/lib" ("os" ++ ".py")), origin := none,
            submodule_search_locations := none } :=
  ⟨⟨rfl, by decide, by decide⟩,
    c4_unique_suffix_file envC4 [] "os" "/lib" ".py" ModuleType.PY_SOURCE
      rfl (by decide) (by decide) (by decide) (by decide)⟩

/-- The only error `_find_spec_with_path` raises is the line-338
`ImportError`, which carries the dotted join of the full `module_parts`. -/
theorem fswp_error_dotted (env : Env) (search_path : List String)
    (modname : String) (module_parts processed : List String)
    (sub : Option (List String)) (pic : Pic) (d : String)
    (h : (find_spec_with_path env search_path modname module_parts processed
      sub pic).1 = .error d) :
    d = String.intercalate "." module_parts := by
  unfold find_spec_with_path find_spec_chain at h
  simp only at h
  split at h
  · cases h
  · split at h
    · cases h
    · split at h
      · cases h
      · split at h
        · cases h
        · injection h with h'
          exact h'.symm

/-- Any ModuleNotFound produced by the resolution loop identifies the
dotted join of the full `module_parts` list. -/
theorem loop_error_dotted (env : Env) (search_path : List String)
    (path : Option (List String)) (module_parts : List String) :
    ∀ (rest processed : List String) (sub : Option (List String)) (pic : Pic)
      (d : String),
      (find_spec_loop env search_path path module_parts rest processed sub
        pic).1 = .error (.moduleNotFound d) →
      d = String.intercalate "." module_parts := by
  intro rest
  induction rest with
  | nil =>
    intro processed sub pic d h
    simp [find_spec_loop] at h
  | cons m rest ih =>
    intro processed sub pic d h
    unfold find_spec_loop at h
    rcases hw : find_spec_with_path env search_path m module_parts processed
      (pyOr sub path) pic with ⟨res, pic'⟩
    rw [hw] at h
    cases res with
    | error dotted =>
      simp only at h
      injection h with h1
      injection h1 with h2
      rw [← h2]
      exact fswp_error_dotted env search_path m module_parts processed
        (pyOr sub path) pic dotted (by rw [hw])
    | ok pr =>
      obtain ⟨fk, spec⟩ := pr
      simp only at h
      cases rest with
      | nil => simp at h
      | cons r rs => exact ih _ _ _ d h

/-- C6, amended: whenever `find_spec` fails with ModuleNotFound, the
identified dotted path is the join of *all* input components (the full
`module_parts`, line 338), not the components processed up to the failing
one. -/
theorem c6_amended (env : Env) (pic : Pic) (modpath : List String)
    (path : Option (List String)) (d : String)
    (h : (find_spec env pic modpath path).1 = .error (.moduleNotFound d)) :
    d = String.intercalate "." modpath := by
  unfold find_spec at h
  exact loop_error_dotted env _ path modpath modpath [] none pic d h

/-- C6, witness for the amended theorem at the `envNone` scenario. -/
theorem c6_witness :
    (find_spec envNone [] ["a", "b"] none).1 =
      .error (.moduleNotFound "a.b") ∧
    ("a.b" : String) = String.intercalate "." ["a", "b"] :=
  ⟨rfl, c6_amended envNone [] ["a", "b"] none "a.b" rfl⟩

/-- Membership in `dedupGo`: an element survives iff it is in the input
and not among the already-seen keys. -/
theorem dedupGo_mem (a : String) :
    ∀ (l seen : List String), a ∈ dedupGo seen l ↔ a ∈ l ∧ a ∉ seen := by
  intro l
  induction l with
  | nil => intro seen; simp [dedupGo]
  | cons p rest ih =>
    intro seen
    by_cases hp : p ∈ seen
    · rw [dedupGo, if_pos hp, ih]
      constructor
      · rintro ⟨h1, h2⟩
        exact ⟨List.mem_cons_of_mem p h1, h2⟩
      · rintro ⟨h1, h2⟩
        cases List.mem_cons.1 h1 with
        | inl he => exact absurd (he ▸ hp) h2
        | inr hr => exact ⟨hr, h2⟩
    · rw [dedupGo, if_neg hp]
      constructor
      · intro h
        cases List.mem_cons.1 h with
        | inl he => exact ⟨he ▸ List.mem_cons_self p rest, he ▸ hp⟩
        | inr hr =>
          obtain ⟨h1, h2⟩ := (ih (p :: seen)).1 hr
          exact ⟨List.mem_cons_of_mem p h1,
            fun hs => h2 (List.mem_cons_of_mem p hs)⟩
      · rintro ⟨h1, h2⟩
        cases List.mem_cons.1 h1 with
        | inl he => exact he ▸ List.mem_cons_self p _
        | inr hr =>
          by_cases hap : a = p
          · exact hap ▸ List.mem_cons_self p _
          · exact List.mem_cons_of_mem p ((ih (p :: seen)).2
              ⟨hr, fun hc => (List.mem_cons.1 hc).elim hap h2⟩)

/-- Membership in the modelled Python set difference. -/
theorem pySetDiff_mem {a : String} {l r : List String} :
    a ∈ pySetDiff l r ↔ a ∈ l ∧ a ∉ r := by
  unfold pySetDiff dedupKeepFirst
  rw [dedupGo_mem]
  simp [List.mem_filter]

/-- C8, amended: cache population only appends — every existing entry
persists untouched — and each appended entry is for a previously-uncached
path whose zipimporter construction succeeded; paths whose construction
fails are skipped, not recorded. -/
theorem c8_amended (env : Env) (path : Option (List String)) (pic : Pic) :
    ∃ adds, precache_zipimporters env path pic = pic ++ adds ∧
      ∀ kv ∈ adds, kv.1 ∉ pic.map Prod.fst ∧
        ∃ z, env.zipimporterOf kv.1 = some z ∧ kv.2 = PicEntry.zip z := by
  unfold precache_zipimporters
  refine ⟨_, rfl, ?_⟩
  intro kv hkv
  obtain ⟨p, hp, hpe⟩ := List.mem_filterMap.1 hkv
  cases hz : env.zipimporterOf p with
  | none => rw [hz] at hpe; cases hpe
  | some z =>
    rw [hz] at hpe
    simp only [Option.map_some'] at hpe
    injection hpe with hpe'
    subst hpe'
    have hmem := pySetDiff_mem.1 hp
    exact ⟨hmem.2, z, hz, rfl⟩

/-- After one population pass, a second pass adds nothing: all remaining
uncached requested paths are exactly those whose construction fails. -/
theorem precache_extend_nil (env : Env) (req : List String) (pic adds : Pic)
    (hadds : adds = (pySetDiff req (pic.map Prod.fst)).filterMap fun p =>
      (env.zipimporterOf p).map fun z => (p, PicEntry.zip z)) :
    ((pySetDiff req ((pic ++ adds).map Prod.fst)).filterMap fun p =>
      (env.zipimporterOf p).map fun z => (p, PicEntry.zip z)) = [] := by
  rw [List.filterMap_eq_nil_iff]
  intro q hq
  obtain ⟨hreq, hnot⟩ := pySetDiff_mem.1 hq
  cases hz : env.zipimporterOf q with
  | none => simp
  | some z =>
    exfalso
    apply hnot
    rw [List.map_append]
    refine List.mem_append.2 (Or.inr ?_)
    rw [hadds]
    refine List.mem_map.2 ⟨(q, PicEntry.zip z), ?_, rfl⟩
    refine List.mem_filterMap.2 ⟨q, ?_, by simp [hz]⟩
    exact pySetDiff_mem.2 ⟨hreq, fun hc =>
      hnot (by rw [List.map_append]; exact List.mem_append.2 (Or.inl hc))⟩

/-- Cache population is idempotent. -/
theorem precache_idem (env : Env) (path : Option (List String)) (pic : Pic) :
    precache_zipimporters env path (precache_zipimporters env path pic) =
      precache_zipimporters env path pic := by
  simp only [precache_zipimporters]
  rw [precache_extend_nil env (pyOrPath path env.sysPath) pic _ rfl,
    List.append_nil]

/-- The cache returned by `_find_spec_with_path` is exactly the populated
cache. -/
theorem fswp_pic (env : Env) (search_path : List String) (modname : String)
    (module_parts processed : List String) (sub : Option (List String))
    (pic : Pic) :
    (find_spec_with_path env search_path modname module_parts processed sub
      pic).2 = precache_zipimporters env (some search_path) pic :=
  rfl

/-- Running `_find_spec_with_path` from an already-populated cache gives
the same outcome as from the original cache. -/
theorem fswp_precache (env : Env) (search_path : List String)
    (modname : String) (module_parts processed : List String)
    (sub : Option (List String)) (pic : Pic) :
    find_spec_with_path env search_path modname module_parts processed sub
      (precache_zipimporters env (some search_path) pic) =
    find_spec_with_path env search_path modname module_parts processed sub
      pic := by
  unfold find_spec_with_path
  rw [precache_idem]

/-- Starting the resolution loop from the populated cache changes
nothing. -/
theorem loop_precache (env : Env) (search_path : List String)
    (path : Option (List String)) (module_parts : List String) (m : String)
    (rest processed : List String) (sub : Option (List String)) (pic : Pic) :
    find_spec_loop env search_path path module_parts (m :: rest) processed
      sub (precache_zipimporters env (some search_path) pic) =
    find_spec_loop env search_path path module_parts (m :: rest) processed
      sub pic := by
  unfold find_spec_loop
  rw [fswp_precache]

/-- The cache state after resolving a non-empty path is exactly the
populated cache of the initial state. -/
theorem loop_pic_result (env : Env) (search_path : List String)
    (path : Option (List String)) (module_parts : List String) :
    ∀ (rest : List String) (m : String) (processed : List String)
      (sub : Option (List String)) (pic : Pic),
      (find_spec_loop env search_path path module_parts (m :: rest) processed
        sub pic).2 = precache_zipimporters env (some search_path) pic := by
  intro rest
  induction rest with
  | nil =>
    intro m processed sub pic
    unfold find_spec_loop
    rcases hw : find_spec_with_path env search_path m module_parts processed
      (pyOr sub path) pic with ⟨res, pic'⟩
    have hp' : pic' = precache_zipimporters env (some search_path) pic := by
      rw [← fswp_pic env search_path m module_parts processed
        (pyOr sub path) pic, hw]
    cases res with
    | error d => exact hp'
    | ok pr => obtain ⟨fk, spec⟩ := pr; exact hp'
  | cons r rs ih =>
    intro m processed sub pic
    unfold find_spec_loop
    rcases hw : find_spec_with_path env search_path m module_parts processed
      (pyOr sub path) pic with ⟨res, pic'⟩
    have hp' : pic' = precache_zipimporters env (some search_path) pic := by
      rw [← fswp_pic env search_path m module_parts processed
        (pyOr sub path) pic, hw]
    cases res with
    | error d => exact hp'
    | ok pr =>
      obtain ⟨fk, spec⟩ := pr
      exact (ih r _ _ pic').trans (by rw [hp', precache_idem])

/-- C9, confirmed: a second `find_spec` call with the same arguments,
starting from the cache state the first call left behind, returns the
same result pair — resolution is deterministic and idempotent, the shared
importer cache affecting only performance. -/
theorem c9_idempotent (env : Env) (pic : Pic) (modpath : List String)
    (path : Option (List String)) :
    find_spec env (find_spec env pic modpath path).2 modpath path =
      find_spec env pic modpath path := by
  cases modpath with
  | nil => rfl
  | cons m rest =>
    have h2 : (find_spec env pic (m :: rest) path).2 =
        precache_zipimporters env (some (pyOrPath path env.sysPath)) pic := by
      unfold find_spec
      exact loop_pic_result env _ path (m :: rest) rest m [] none pic
    unfold find_spec
    unfold find_spec at h2
    rw [h2]
    exact loop_precache env _ path (m :: rest) m rest [] none pic

/-- `getD` after an unrelated `set` is unchanged. -/
theorem getD_set_ne :
    ∀ (l : List (List String)) (w r : Nat) (v : List String), r ≠ w →
      (l.set w v).getD r [] = l.getD r [] := by
  intro l
  induction l with
  | nil => intro w r v h; rfl
  | cons x xs ih =>
    intro w r v h
    cases w with
    | zero =>
      cases r with
      | zero => exact absurd rfl h
      | succ n => rfl
    | succ m =>
      cases r with
      | zero => rfl
      | succ n => exact ih m n v fun hc => h (by rw [hc])

/-- `getD` below the length of the left part of an append. -/
theorem getD_append_lt :
    ∀ (l l2 : List (List String)) (r : Nat), r < l.length →
      (l ++ l2).getD r [] = l.getD r [] := by
  intro l
  induction l with
  | nil => intro l2 r h; cases h
  | cons x xs ih =>
    intro l2 r h
    cases r with
    | zero => rfl
    | succ n => exact ih l2 n (Nat.lt_of_succ_lt_succ h)

/-- Reading an object other than the written one is unchanged. -/
theorem Store.read_write_ne (σ : Store) (w : Nat) (v : List String) (r : Nat)
    (h : r ≠ w) : (σ.write w v).read r = σ.read r :=
  getD_set_ne σ.cells w r v h

/-- Reading an existing object is unaffected by an allocation. -/
theorem Store.read_append_lt (σ : Store) (v : List String) (r : Nat)
    (h : r < σ.cells.length) :
    (Store.mk (σ.cells ++ [v])).read r = σ.read r :=
  getD_append_lt σ.cells [v] r h

/-- The resolution loop writes only to the local `modpath` copy and the
`processed` list: every other heap object is untouched. -/
theorem loop_st_frame (env : Env) (search_path : List String)
    (pathRef : Option Nat) (module_parts : List String)
    (mpRef procRef : Nat) :
    ∀ (fuel : Nat) (sub : Option (List String)) (last : Option ModuleSpec)
      (pic : Pic) (σ : Store) (r : Nat), r ≠ mpRef → r ≠ procRef →
      ((find_spec_loop_st env search_path pathRef module_parts mpRef procRef
        fuel sub last pic σ).2).read r = σ.read r := by
  intro fuel
  induction fuel with
  | zero =>
    intro sub last pic σ r h1 h2
    unfold find_spec_loop_st
    cases hmp : σ.read mpRef with
    | nil => rfl
    | cons modname rest => rfl
  | succ n ih =>
    intro sub last pic σ r h1 h2
    unfold find_spec_loop_st
    cases hmp : σ.read mpRef with
    | nil => rfl
    | cons modname rest =>
      simp only []
      split
      · exact Store.read_write_ne σ mpRef rest r h1
      · rw [ih _ _ _ _ r h1 h2, Store.read_write_ne _ _ _ _ h2,
          Store.read_write_ne _ _ _ _ h1]

/-- C10, confirmed: `find_spec` never mutates its arguments — after a
call, the caller's `modpath` list object and the caller's `path` list
object hold exactly their original values, because line 361 copies
`modpath` before the loop pops components and nothing ever writes the
caller's objects. -/
theorem c10_no_mutation (env : Env) (pic : Pic) (σ : Store)
    (modpathRef : Nat) (pathRef : Option Nat)
    (hmp : modpathRef < σ.cells.length)
    (hpr : ∀ r, pathRef = some r → r < σ.cells.length) :
    ((find_spec_st env pic σ modpathRef pathRef).2).read modpathRef =
      σ.read modpathRef ∧
    ∀ r, pathRef = some r →
      ((find_spec_st env pic σ modpathRef pathRef).2).read r = σ.read r := by
  have key : ∀ r, r < σ.cells.length →
      ((find_spec_st env pic σ modpathRef pathRef).2).read r = σ.read r := by
    intro r hr
    unfold find_spec_st Store.alloc
    simp only []
    have h1 : r ≠ σ.cells.length := Nat.ne_of_lt hr
    have h2 : r ≠ (σ.cells ++ [σ.read modpathRef]).length := by
      rw [List.length_append]
      omega
    rw [loop_st_frame _ _ _ _ _ _ _ _ _ _ _ _ h1 h2]
    exact (Store.read_append_lt ⟨σ.cells ++ [σ.read modpathRef]⟩ [] r
        (by rw [List.length_append]; omega)).trans
      (Store.read_append_lt σ (σ.read modpathRef) r hr)
  exact ⟨key modpathRef hmp, fun r hrr => key r (hpr r hrr)⟩

/-- C10, witness: a concrete heap whose caller objects survive a call. -/
theorem c10_witness :
    (0 < storeW.cells.length) ∧
    ((find_spec_st envNone [] storeW 0 (some 1)).2).read 0 =
      storeW.read 0 ∧
    ((find_spec_st envNone [] storeW 0 (some 1)).2).read 1 =
      storeW.read 1 := by
  refine ⟨by decide, ?_, ?_⟩
  · exact (c10_no_mutation envNone [] storeW 0 (some 1) (by decide)
      (fun r h => by cases h; decide)).1
  · exact (c10_no_mutation envNone [] storeW 0 (some 1) (by decide)
      (fun r h => by cases h; decide)).2 1 rfl
